import Mathlib

/-!
# Verification of the flood mapping application (src/app.py)

A shallow embedding of the flood-mapping Streamlit application.  The
application is thin glue over the Google Earth Engine (EE) query engine:
rasters are embedded as functions from an abstract pixel type `α` to
`Option ℚ` (`none` is a masked / no-data pixel), EE's per-pixel operators
(`gt`, `lt`, `selfMask`, `updateMask`, `normalizedDifference`, mean
reduction) are embedded per their documented server-side semantics, and
the script's top-level control flow (shapefile loading, the two
Sentinel-2 queries, and the layers added to the map) is embedded as a
pure function producing the list of added layers and emitted messages.
-/

namespace FloodApp

/-- A single-band raster: a value per pixel, `none` meaning masked (no-data). -/
abbrev Band (α : Type) := α → Option ℚ

/-- EE `image.gt(threshold)`: per pixel, 1 where the value is strictly
greater than the threshold, 0 otherwise; masked pixels stay masked. -/
def gt {α : Type} (image : Band α) (threshold : ℚ) : Band α :=
  fun p => (image p).map (fun v => if threshold < v then 1 else 0)

/-- EE `image.lt(threshold)`: per pixel, 1 where the value is strictly
less than the threshold, 0 otherwise; masked pixels stay masked. -/
def lt {α : Type} (image : Band α) (threshold : ℚ) : Band α :=
  fun p => (image p).map (fun v => if v < threshold then 1 else 0)

/-- EE `image.selfMask()`: masks every pixel whose value is zero. -/
def selfMask {α : Type} (image : Band α) : Band α :=
  fun p => (image p).bind (fun v => if v = 0 then none else some v)

/-- EE `image.updateMask(mask)`: the output is valid exactly where the
image is valid, the mask is valid and the mask value is nonzero. -/
def updateMask {α : Type} (image mask : Band α) : Band α :=
  fun p => (mask p).bind (fun m => if m = 0 then none else image p)

/-- EE `image.normalizedDifference([b1, b2])`: `(b1 - b2) / (b1 + b2)`,
with negative input values forced to 0 (per the EE documentation) and
the result masked where the denominator is zero or an input is masked. -/
def normalizedDifference {α : Type} (b1 b2 : Band α) : Band α :=
  fun p =>
    match b1 p, b2 p with
    | some x, some y =>
        let x' := max x 0
        let y' := max y 0
        if x' + y' = 0 then none else some ((x' - y') / (x' + y'))
    | _, _ => none

/-- A Sentinel-2 multispectral image: the bands the application reads. -/
structure MSImage (α : Type) where
  b2 : Band α
  b3 : Band α
  b4 : Band α
  b11 : Band α

/-- `calculate_mndwi` (src/app.py line 118): the MNDWI band of an image,
`image.normalizedDifference(['B3', 'B11'])`.  The source adds the band to
the image and the caller immediately selects it back out, so the
composition is the band itself. -/
def calculate_mndwi {α : Type} (image : MSImage α) : Band α :=
  normalizedDifference image.b3 image.b11

/-- EE mean reduction of a list of single-band images at each pixel:
the average of the unmasked values, masked where every input is masked. -/
def meanBand {α : Type} (imgs : List (Band α)) : Band α :=
  fun p =>
    let vs := imgs.filterMap (fun img => img p)
    if vs.isEmpty then none else some (vs.sum / (vs.length : ℚ))

/-- `water_mask` (src/app.py line 123): `image.gt(threshold).selfMask()`.
Water pixels carry value 1; all other pixels are masked out. -/
def water_mask {α : Type} (image : Band α) (threshold : ℚ) : Band α :=
  selfMask (gt image threshold)

/-- `notPermWaterMask` (src/app.py line 162):
`preflood_mndwi.lt(0.01).selfMask()`. -/
def notPermWaterMask {α : Type} (preflood_mndwi : Band α) : Band α :=
  selfMask (lt preflood_mndwi (1/100))

/-- `flooded` (src/app.py lines 159-163): the post-event water mask at
threshold 0.01, update-masked by the complement of pre-event water. -/
def flooded {α : Type} (preflood_mndwi postflood_mndwi : Band α) : Band α :=
  updateMask (water_mask postflood_mndwi (1/100)) (notPermWaterMask preflood_mndwi)

/-- A user-visible Streamlit message: `st.warning` or `st.error`. -/
inductive Msg where
  | warning (text : String)
  | error (text : String)
deriving DecidableEq

/-- A point of a boundary geometry (a coordinate pair). -/
abbrev Point := ℚ × ℚ

/-- A GeoDataFrame as the application uses it: a coordinate reference
system tag (an EPSG code) and the boundary coordinates. -/
structure GeoDF where
  crs : ℕ
  geometry : List Point
deriving DecidableEq

/-- A coordinate-conversion family, as supplied by the projection
library: `conv src dst` transforms a point from EPSG `src` to EPSG `dst`. -/
abbrev Conv := ℕ → ℕ → Point → Point

/-- geopandas `GeoDataFrame.to_crs(epsg=target)`: retags the frame with
the target CRS and passes every coordinate through the projection
library's transformation from the current CRS to the target. -/
def to_crs (conv : Conv) (target : ℕ) (gdf : GeoDF) : GeoDF :=
  { crs := target, geometry := gdf.geometry.map (conv gdf.crs target) }

/-- The uploaded ZIP archive: its member file names, and the geometry
obtained by reading a member shapefile (`gpd.read_file`). -/
structure ZipFile where
  namelist : List String
  read : String → GeoDF

/-- Python `file.endswith(".shp")` (src/app.py line 73): a suffix test
on the file name's character sequence. -/
def endswithShp (file : String) : Bool :=
  ".shp".data.isSuffixOf file.data

/-- The first member of the archive whose name ends in `.shp`, following
the loop of src/app.py lines 71-75. -/
def findShp : List String → Option String
  | [] => none
  | f :: rest => if endswithShp f then some f else findShp rest

/-- `load_shapefile_from_zip` (src/app.py lines 57-83): scans the
archive's name list for a `.shp` member; reads and returns it when
found, otherwise returns `None` and emits an `st.error`.  The returned
list collects the messages emitted during the call. -/
def load_shapefile_from_zip (zip_file : ZipFile) : Option GeoDF × List Msg :=
  match findShp zip_file.namelist with
  | some shp_file => (some (zip_file.read shp_file), [])
  | none => (none, [Msg.error "Shapefile (.shp) not found in the uploaded ZIP file."])

/-- The RGB visualization parameters of `get_S2` (src/app.py lines
109-113): bands B4, B3, B2 stretched from [0, 3000] to the unit range. -/
def stretchVis (v : ℚ) : ℚ := min (max v 0) 3000 / 3000

/-- `s2_clipped.mean().visualize(**vis_params)` (src/app.py line 115):
the mean composite of the visible bands under the RGB stretch. -/
def visualizeRGB {α : Type} (col : List (MSImage α)) : MSImage α :=
  { b2 := fun p => ((meanBand (col.map MSImage.b2)) p).map stretchVis
    b3 := fun p => ((meanBand (col.map MSImage.b3)) p).map stretchVis
    b4 := fun p => ((meanBand (col.map MSImage.b4)) p).map stretchVis
    b11 := fun p => (meanBand (col.map MSImage.b11)) p }

/-- The warning emitted by `get_S2` for an empty collection
(src/app.py line 105). -/
def noDataWarning (start_date_str end_date_str : String) : Msg :=
  Msg.warning ("No Sentinel-2 images found for the selected date range: "
    ++ start_date_str ++ " to " ++ end_date_str)

/-- `get_S2` (src/app.py lines 93-115).  Filtering by date and bounds and
clipping happen remotely; the function is embedded over the resulting
clipped collection `s2_clipped`.  If the collection is empty it warns and
returns the sentinel `(None, None)`; otherwise it returns the visualized
mean composite and the collection.  The second component of the result
pair collects the messages emitted during the call. -/
def get_S2 {α : Type} (s2_clipped : List (MSImage α))
    (start_date_str end_date_str : String) :
    (Option (MSImage α) × Option (List (MSImage α))) × List Msg :=
  if s2_clipped.length = 0 then
    ((none, none), [noDataWarning start_date_str end_date_str])
  else
    ((some (visualizeRGB s2_clipped), some s2_clipped), [])

/-- The mean MNDWI composite of a collection
(`col.map(calculate_mndwi).select('MNDWI').mean()`,
src/app.py lines 149 and 158). -/
def mndwiMean {α : Type} (col : List (MSImage α)) : Band α :=
  meanBand (col.map calculate_mndwi)

/-- The observable result of one run of the script's main block: the map
layers in the order they were added, whether the legend was added, and
the messages emitted. -/
structure AppState where
  layers : List String
  legend : Bool
  msgs : List Msg
deriving DecidableEq

/-- The script's main block (src/app.py lines 128-188), embedded over the
remotely-filtered collections for the two date ranges.  With no upload
the default map has no layers; an upload without a shapefile stops after
the loader's error; otherwise the boundary is reprojected, the AOI layer
is added, and each Sentinel-2 query gates its own branch: the pre-flood
RGB layer, then (nested inside the pre-flood branch) the post-flood
query, the post-flood RGB layer, the flood extent layer and the legend. -/
def run {α : Type} (conv : Conv) (uploaded_zip : Option ZipFile)
    (preCol postCol : List (MSImage α))
    (preStart preEnd postStart postEnd : String) : AppState :=
  match uploaded_zip with
  | none => { layers := [], legend := false, msgs := [] }
  | some z =>
    match load_shapefile_from_zip z with
    | (none, msgs₀) => { layers := [], legend := false, msgs := msgs₀ }
    | (some study_extent, msgs₀) =>
      let _study_extent := to_crs conv 4326 study_extent
      let ((pre_rgb_layer, _s2_preflood_clipped), msgs₁) :=
        get_S2 preCol preStart preEnd
      match pre_rgb_layer with
      | none => { layers := ["AOI"], legend := false, msgs := msgs₀ ++ msgs₁ }
      | some _ =>
        let ((post_rgb_layer, _s2_postflood_clipped), msgs₂) :=
          get_S2 postCol postStart postEnd
        match post_rgb_layer with
        | none =>
          { layers := ["AOI", "Pre-flood RGB"], legend := false
            msgs := msgs₀ ++ msgs₁ ++ msgs₂ }
        | some _ =>
          { layers := ["AOI", "Pre-flood RGB", "Post-flood RGB", "Flood Extent"]
            legend := true, msgs := msgs₀ ++ msgs₁ ++ msgs₂ }

/-- A constant sample band, for instantiating the general theorems. -/
def constBand (v : ℚ) : Band Unit := fun _ => some v

/-- A sample Sentinel-2 image with constant bands. -/
def sampleImage : MSImage Unit :=
  { b2 := constBand 100, b3 := constBand 3, b4 := constBand 300, b11 := constBand 1 }

/-- The identity coordinate conversion family. -/
def idConv : Conv := fun _ _ p => p

/-- A sample archive containing a shapefile. -/
def sampleZip : ZipFile :=
  { namelist := ["boundary.shp", "boundary.dbf", "boundary.prj"]
    read := fun _ => { crs := 4326, geometry := [(30, 31)] } }

/-- A sample archive with no `.shp` member. -/
def zipNoShp : ZipFile :=
  { namelist := ["boundary.dbf", "boundary.prj", "boundary.shx"]
    read := fun _ => { crs := 4326, geometry := [] } }

/- ## Helper lemmas -/

/-- Characterization of `water_mask`: the pixel carries 1 exactly where
the index value exceeds the threshold, and is masked everywhere else. -/
theorem water_mask_eq {α : Type} (image : Band α) (threshold : ℚ) (p : α) :
    water_mask image threshold p =
      (image p).bind (fun v => if threshold < v then some 1 else none) := by
  rcases h : image p with _ | v <;>
    simp [water_mask, selfMask, gt, h] <;> split_ifs <;>
      first
      | rfl
      | linarith
      | simp_all

/-- A pixel is present in a water mask iff its index value exists and
strictly exceeds the threshold. -/
theorem water_mask_isSome_iff {α : Type} (image : Band α) (threshold : ℚ) (p : α) :
    (water_mask image threshold p).isSome = true ↔
      ∃ v, image p = some v ∧ threshold < v := by
  rw [water_mask_eq]
  rcases h : image p with _ | v <;> simp

/-- Characterization of `flooded`: a pixel is present iff the pre-event
index is below the cutoff and the post-event index is above it. -/
theorem flooded_isSome_iff {α : Type} (pre post : Band α) (p : α) :
    (flooded pre post p).isSome = true ↔
      ((∃ v, pre p = some v ∧ v < 1/100) ∧ ∃ w, post p = some w ∧ 1/100 < w) := by
  rcases hpre : pre p with _ | v <;> rcases hpost : post p with _ | w <;>
    simp [flooded, updateMask, notPermWaterMask, selfMask, FloodApp.lt,
      water_mask, FloodApp.gt, hpre, hpost] <;>
    split_ifs <;> simp_all

/-- Bounds for `normalizedDifference`: every defined value lies in the
closed interval from -1 to 1. -/
theorem normalizedDifference_bounds {α : Type} (b1 b2 : Band α) (p : α) (v : ℚ)
    (h : normalizedDifference b1 b2 p = some v) : -1 ≤ v ∧ v ≤ 1 := by
  rcases h1 : b1 p with _ | x <;> rcases h2 : b2 p with _ | y <;>
    simp [normalizedDifference, h1, h2] at h
  rcases h with ⟨hs, hv⟩
  have hx : (0 : ℚ) ≤ max x 0 := le_max_right _ _
  have hy : (0 : ℚ) ≤ max y 0 := le_max_right _ _
  have hpos : (0 : ℚ) < max x 0 + max y 0 :=
    lt_of_le_of_ne (by positivity) (Ne.symm hs)
  constructor
  · rw [← hv, le_div_iff₀ hpos]
    linarith
  · rw [← hv, div_le_one hpos]
    linarith

/-- If no member of the archive ends in `.shp`, the scan finds nothing. -/
theorem findShp_eq_none {l : List String} (h : ∀ f ∈ l, endswithShp f = false) :
    findShp l = none := by
  induction l with
  | nil => rfl
  | cons f rest ih =>
    rw [findShp, h f (List.mem_cons_self f rest)]
    exact ih fun g hg => h g (List.mem_cons_of_mem f hg)

/-- A run whose archive holds no shapefile stops with the loader's error
and adds no layer. -/
theorem run_no_shp {α : Type} (conv : Conv) (z : ZipFile)
    (h : findShp z.namelist = none) (preCol postCol : List (MSImage α))
    (ps pe qs qe : String) :
    run conv (some z) preCol postCol ps pe qs qe =
      { layers := [], legend := false,
        msgs := [Msg.error "Shapefile (.shp) not found in the uploaded ZIP file."] } := by
  simp [run, load_shapefile_from_zip, h]

/-- A run with a shapefile but an empty pre-event collection stops after
the AOI layer with the pre-event warning. -/
theorem run_shp_pre_empty {α : Type} (conv : Conv) (z : ZipFile) (f : String)
    (h : findShp z.namelist = some f) (postCol : List (MSImage α))
    (ps pe qs qe : String) :
    run conv (some z) ([] : List (MSImage α)) postCol ps pe qs qe =
      { layers := ["AOI"], legend := false, msgs := [noDataWarning ps pe] } := by
  simp [run, load_shapefile_from_zip, h, get_S2]

/-- A run with a shapefile, a nonempty pre-event collection and an empty
post-event collection stops after the pre-flood RGB layer with the
post-event warning. -/
theorem run_shp_post_empty {α : Type} (conv : Conv) (z : ZipFile) (f : String)
    (h : findShp z.namelist = some f) (img : MSImage α) (rest : List (MSImage α))
    (ps pe qs qe : String) :
    run conv (some z) (img :: rest) ([] : List (MSImage α)) ps pe qs qe =
      { layers := ["AOI", "Pre-flood RGB"], legend := false,
        msgs := [noDataWarning qs qe] } := by
  simp [run, load_shapefile_from_zip, h, get_S2]

/-- A run with a shapefile and data in both date ranges adds all four
layers and the legend. -/
theorem run_shp_both_nonempty {α : Type} (conv : Conv) (z : ZipFile) (f : String)
    (h : findShp z.namelist = some f) (i j : MSImage α) (r s : List (MSImage α))
    (ps pe qs qe : String) :
    run conv (some z) (i :: r) (j :: s) ps pe qs qe =
      { layers := ["AOI", "Pre-flood RGB", "Post-flood RGB", "Flood Extent"],
        legend := true, msgs := [] } := by
  simp [run, load_shapefile_from_zip, h, get_S2]

/- ## Claim theorems -/

/-- C1: for every pair of pre-event and post-event mean MNDWI composites,
a pixel is present in the flood mask iff it is present in the post-event
water mask and its pre-event index satisfies the complement condition
(strictly less than the 0.01 cutoff): the set difference of post-event
water and pre-event permanent water. -/
theorem flooded_eq_post_water_minus_perm_water {α : Type}
    (preflood_mndwi postflood_mndwi : Band α) (p : α) :
    (flooded preflood_mndwi postflood_mndwi p).isSome = true ↔
      ((water_mask postflood_mndwi (1/100) p).isSome = true ∧
        ∃ v, preflood_mndwi p = some v ∧ v < 1/100) := by
  rw [flooded_isSome_iff, water_mask_isSome_iff]
  tauto

/-- Witness for C1 at a concrete pre/post composite pair. -/
theorem flooded_eq_post_water_minus_perm_water_witness :
    (flooded (constBand 0) (constBand 1) ()).isSome = true ↔
      ((water_mask (constBand 1) (1/100) ()).isSome = true ∧
        ∃ v, constBand 0 () = some v ∧ v < 1/100) :=
  flooded_eq_post_water_minus_perm_water (constBand 0) (constBand 1) ()

/-- C2: for every pair of composites, the flood mask is a subset of the
post-event water mask: every pixel present in the flood mask is present
in the post-event water mask. -/
theorem flooded_subset_post_water_mask {α : Type}
    (preflood_mndwi postflood_mndwi : Band α) (p : α)
    (h : (flooded preflood_mndwi postflood_mndwi p).isSome = true) :
    (water_mask postflood_mndwi (1/100) p).isSome = true := by
  rw [water_mask_isSome_iff]
  exact ((flooded_isSome_iff _ _ _).mp h).2

/-- Witness for C2 at a concrete flooded pixel. -/
theorem flooded_subset_post_water_mask_witness :
    (water_mask (constBand 1) ((1:ℚ)/100) ()).isSome = true :=
  flooded_subset_post_water_mask (constBand 0) (constBand 1) ()
    (by
      rw [flooded_isSome_iff]
      exact ⟨⟨0, rfl, by norm_num⟩, ⟨1, rfl, by norm_num⟩⟩)

/-- C3: a pixel whose pre-event MNDWI value strictly exceeds 0.01
(permanent water pre-event) is always masked out of the flood mask,
whatever the post-event composite. -/
theorem perm_water_pixel_never_flooded {α : Type}
    (preflood_mndwi postflood_mndwi : Band α) (p : α) (v : ℚ)
    (hv : preflood_mndwi p = some v) (hgt : 1/100 < v) :
    flooded preflood_mndwi postflood_mndwi p = none := by
  rw [← Option.not_isSome_iff_eq_none]
  intro hs
  rcases ((flooded_isSome_iff _ _ _).mp hs).1 with ⟨w, hw, hlt⟩
  rw [hv] at hw
  cases hw
  linarith

/-- Witness for C3 at a concrete permanent-water pixel. -/
theorem perm_water_pixel_never_flooded_witness :
    flooded (constBand 1) (constBand 1) () = none :=
  perm_water_pixel_never_flooded (constBand 1) (constBand 1) () 1 rfl (by norm_num)

/-- C7: `water_mask` classifies as water (value 1) exactly the pixels
whose index value strictly exceeds the threshold; every other pixel is
masked out as no-data, never carried as a zero value. -/
theorem water_mask_classifies_strictly_above_threshold {α : Type}
    (image : Band α) (threshold : ℚ) (p : α) :
    (water_mask image threshold p = some 1 ↔
      ∃ v, image p = some v ∧ threshold < v) ∧
    (water_mask image threshold p = some 1 ∨ water_mask image threshold p = none) := by
  rw [water_mask_eq]
  rcases h : image p with _ | v <;> simp
  exact lt_or_le threshold v

/-- Witness for C7 at a concrete image and threshold. -/
theorem water_mask_classifies_witness :
    (water_mask (constBand 1) ((1:ℚ)/100) () = some 1 ↔
      ∃ v, constBand 1 () = some v ∧ (1:ℚ)/100 < v) ∧
    (water_mask (constBand 1) ((1:ℚ)/100) () = some 1 ∨
      water_mask (constBand 1) ((1:ℚ)/100) () = none) :=
  water_mask_classifies_strictly_above_threshold (constBand 1) (1/100) ()

/-- C8: the MNDWI band, the normalized difference of B3 and B11, takes a
value in the closed interval from -1 to 1 at every pixel where it is
defined. -/
theorem calculate_mndwi_in_unit_interval {α : Type}
    (image : MSImage α) (p : α) (v : ℚ)
    (h : calculate_mndwi image p = some v) : -1 ≤ v ∧ v ≤ 1 :=
  normalizedDifference_bounds image.b3 image.b11 p v h

/-- Witness for C8: a concrete image whose MNDWI value is 1/2. -/
theorem calculate_mndwi_in_unit_interval_witness :
    -1 ≤ (1/2 : ℚ) ∧ (1/2 : ℚ) ≤ 1 :=
  calculate_mndwi_in_unit_interval sampleImage () (1/2)
    (by norm_num [calculate_mndwi, normalizedDifference, sampleImage, constBand])

/-- C4: the imagery query on an empty filtered collection returns the
no-data sentinel for both components and emits the user-visible warning,
and in the main run no layer is added for an empty date range. -/
theorem empty_collection_sentinel_and_no_layer {α : Type} (conv : Conv)
    (uploaded_zip : Option ZipFile) (preCol postCol : List (MSImage α))
    (ps pe qs qe : String) :
    (∀ s e : String,
      get_S2 ([] : List (MSImage α)) s e = ((none, none), [noDataWarning s e])) ∧
    (preCol = [] →
      "Pre-flood RGB" ∉ (run conv uploaded_zip preCol postCol ps pe qs qe).layers) ∧
    (postCol = [] →
      "Post-flood RGB" ∉ (run conv uploaded_zip preCol postCol ps pe qs qe).layers) := by
  refine ⟨fun s e => rfl, ?_, ?_⟩
  · rintro rfl
    cases uploaded_zip with
    | none => simp [run]
    | some z =>
      rcases hz : findShp z.namelist with _ | f
      · rw [run_no_shp conv z hz]
        decide
      · rw [run_shp_pre_empty conv z f hz]
        show "Pre-flood RGB" ∉ ["AOI"]
        decide
  · rintro rfl
    cases uploaded_zip with
    | none => simp [run]
    | some z =>
      rcases hz : findShp z.namelist with _ | f
      · rw [run_no_shp conv z hz]
        decide
      · cases preCol with
        | nil =>
          rw [run_shp_pre_empty conv z f hz]
          show "Post-flood RGB" ∉ ["AOI"]
          decide
        | cons i r =>
          rw [run_shp_post_empty conv z f hz]
          show "Post-flood RGB" ∉ ["AOI", "Pre-flood RGB"]
          decide

/-- Witness for C4 at a concrete empty query and run. -/
theorem empty_collection_sentinel_and_no_layer_witness :
    get_S2 ([] : List (MSImage Unit)) "a" "b" = ((none, none), [noDataWarning "a" "b"]) ∧
    "Pre-flood RGB" ∉
      (run idConv (some sampleZip) ([] : List (MSImage Unit)) [] "a" "b" "c" "d").layers ∧
    "Post-flood RGB" ∉
      (run idConv (some sampleZip) ([] : List (MSImage Unit)) [] "a" "b" "c" "d").layers :=
  ⟨(empty_collection_sentinel_and_no_layer idConv (some sampleZip)
      ([] : List (MSImage Unit)) [] "a" "b" "c" "d").1 "a" "b",
   (empty_collection_sentinel_and_no_layer idConv (some sampleZip)
      ([] : List (MSImage Unit)) [] "a" "b" "c" "d").2.1 rfl,
   (empty_collection_sentinel_and_no_layer idConv (some sampleZip)
      ([] : List (MSImage Unit)) [] "a" "b" "c" "d").2.2 rfl⟩

/-- C5 counterexample: with a valid shapefile, an empty pre-event
collection and a nonempty post-event collection, the post-event query on
its own data would return a composite (not the sentinel), yet the
post-flood RGB layer is not added, because the post-event branch is
nested inside the pre-event branch. -/
theorem post_layer_not_added_on_empty_pre :
    ((get_S2 [sampleImage] "c" "d").1.1).isSome = true ∧
    "Post-flood RGB" ∉
      (run idConv (some sampleZip) ([] : List (MSImage Unit)) [sampleImage]
        "a" "b" "c" "d").layers := by
  constructor
  · rfl
  · rw [run_shp_pre_empty idConv sampleZip "boundary.shp" (by decide)]
    decide

/-- C5 (amended): when a query returns the no-data sentinel, the layers
already added remain and that branch's downstream derivation is skipped;
since the post-event query is nested inside the pre-event branch, an
empty pre-event result also skips the post-event query entirely, leaving
only the AOI layer, while an empty post-event result leaves the AOI and
pre-flood layers in place. -/
theorem empty_query_skips_nested_downstream {α : Type} (conv : Conv)
    (z : ZipFile) (f : String) (h : findShp z.namelist = some f)
    (img : MSImage α) (preRest postCol : List (MSImage α)) (ps pe qs qe : String) :
    (run conv (some z) ([] : List (MSImage α)) postCol ps pe qs qe).layers = ["AOI"] ∧
    (run conv (some z) (img :: preRest) ([] : List (MSImage α)) ps pe qs qe).layers =
      ["AOI", "Pre-flood RGB"] :=
  ⟨by rw [run_shp_pre_empty conv z f h], by rw [run_shp_post_empty conv z f h]⟩

/-- Witness for the amended C5 at a concrete archive and collections. -/
theorem empty_query_skips_nested_downstream_witness :
    (run idConv (some sampleZip) ([] : List (MSImage Unit)) [sampleImage]
      "a" "b" "c" "d").layers = ["AOI"] ∧
    (run idConv (some sampleZip) [sampleImage] ([] : List (MSImage Unit))
      "a" "b" "c" "d").layers = ["AOI", "Pre-flood RGB"] :=
  empty_query_skips_nested_downstream idConv sampleZip "boundary.shp" (by decide)
    sampleImage [] [sampleImage] "a" "b" "c" "d"

/-- C6: an archive with no `.shp` member makes the loader return `None`
with a user-facing error, and the whole run adds no layer and performs no
further processing (its only output is the loader's error message). -/
theorem no_shp_in_zip_halts {α : Type} (conv : Conv) (z : ZipFile)
    (h : ∀ f ∈ z.namelist, endswithShp f = false)
    (preCol postCol : List (MSImage α)) (ps pe qs qe : String) :
    load_shapefile_from_zip z =
      (none, [Msg.error "Shapefile (.shp) not found in the uploaded ZIP file."]) ∧
    run conv (some z) preCol postCol ps pe qs qe =
      { layers := [], legend := false,
        msgs := [Msg.error "Shapefile (.shp) not found in the uploaded ZIP file."] } := by
  have hf := findShp_eq_none h
  exact ⟨by simp [load_shapefile_from_zip, hf],
    run_no_shp conv z hf preCol postCol ps pe qs qe⟩

/-- Witness for C6 at a concrete archive without a shapefile. -/
theorem no_shp_in_zip_halts_witness :
    load_shapefile_from_zip zipNoShp =
      (none, [Msg.error "Shapefile (.shp) not found in the uploaded ZIP file."]) ∧
    run idConv (some zipNoShp) ([] : List (MSImage Unit)) [] "a" "b" "c" "d" =
      { layers := [], legend := false,
        msgs := [Msg.error "Shapefile (.shp) not found in the uploaded ZIP file."] } :=
  no_shp_in_zip_halts idConv zipNoShp (by decide) [] [] "a" "b" "c" "d"

/-- C9: reprojecting a boundary whose CRS is already EPSG:4326 to
EPSG:4326 leaves it unchanged, given that the projection library's
transformation from a CRS to itself is the identity. -/
theorem to_crs_noop_on_target_crs (conv : Conv)
    (hconv : ∀ c p, conv c c p = p) (gdf : GeoDF) (h : gdf.crs = 4326) :
    to_crs conv 4326 gdf = gdf := by
  rcases gdf with ⟨c, g⟩
  obtain rfl : c = 4326 := h
  have hid : conv 4326 4326 = id := funext (hconv 4326)
  simp [to_crs, hid]

/-- Witness for C9 at a concrete boundary already in EPSG:4326. -/
theorem to_crs_noop_on_target_crs_witness :
    to_crs idConv 4326 { crs := 4326, geometry := [(30, 31)] } =
      { crs := 4326, geometry := [(30, 31)] } :=
  to_crs_noop_on_target_crs idConv (fun _ _ => rfl) _ rfl

/-- C10: the two components of the imagery query's result are `none`
together: the visual composite is `none` iff the returned collection is. -/
theorem get_S2_components_none_iff {α : Type}
    (col : List (MSImage α)) (s e : String) :
    ((get_S2 col s e).1.1 = none ↔ (get_S2 col s e).1.2 = none) := by
  by_cases h : col.length = 0 <;> simp [get_S2, h]

/-- Witness for C10 at a concrete empty collection. -/
theorem get_S2_components_none_iff_witness :
    ((get_S2 ([] : List (MSImage Unit)) "a" "b").1.1 = none ↔
      (get_S2 ([] : List (MSImage Unit)) "a" "b").1.2 = none) :=
  get_S2_components_none_iff [] "a" "b"

end FloodApp
